import Mathlib

/-!
Verification of the descriptor-reduction core in src/rust/src/api.rs.

Modelling conventions:
- The external protobuf parser (protobuf_parse + protoc) is an environment
  mapping a source path to either a parsed file descriptor or a ParseError.
- anyhow::Result is Except ParseError; a Rust panic (unwrap, unreachable)
  is Option.none threaded through the computation.
- ZeroCopyBuffer is a transparent wrapper around the vector it carries and
  is elided from the model.
- u8 arithmetic carries an explicit mod 256.
-/

namespace GrpcDebug

/-- Error produced when the external parser rejects a source location
(anyhow::Error in the source, carrying a message). -/
structure ParseError where
  msg : String
deriving Repr, DecidableEq

/-- The data of a protobuf FieldDescriptor that Field::from_descriptor reads:
the field name and the two cardinality queries is_singular and is_repeated,
exposed as independent boolean queries by the external collaborator. -/
structure FieldDescriptorData where
  name : String
  is_singular : Bool
  is_repeated : Bool
deriving Repr, DecidableEq

/-- The data of a MethodDescriptorProto that Method::from_descriptor_proto
reads: the method name, the results of has_client_streaming() and
has_server_streaming(), and the input type reference. -/
structure MethodDescriptorProto where
  name : String
  client_streaming : Bool
  server_streaming : Bool
  input_type : String
deriving Repr, DecidableEq

/-- The data of a ServiceDescriptorProto that Service::from_descriptor_proto
reads: the service name and its ordered method descriptors. -/
structure ServiceDescriptorProto where
  name : String
  method : List MethodDescriptorProto
deriving Repr, DecidableEq

/-- The data of a reflect MessageDescriptor that Message::from_descriptor_proto
reads: the message name and its ordered field descriptors. -/
structure MessageDescriptorData where
  name : String
  fields : List FieldDescriptorData
deriving Repr, DecidableEq

/-- The data of a parsed file descriptor that Proto::from_file reads: file
name, package, ordered service descriptors, ordered message descriptors. -/
structure FileDescriptorData where
  name : String
  package : String
  service : List ServiceDescriptorProto
  messages : List MessageDescriptorData
deriving Repr, DecidableEq

/-- enum FieldKind (api.rs lines 76-96): 18 wire-type variants plus Unknown. -/
inductive FieldKind where
  | Unknown
  | Double
  | Float
  | Int64
  | Uint64
  | Int32
  | Fixed64
  | Fixed32
  | Bool
  | String
  | Group
  | Message
  | Bytes
  | Uint32
  | Enum
  | Sfixed32
  | Sfixed64
  | Sint32
  | Sint64
deriving Repr, DecidableEq

/-- impl Default for FieldKind (api.rs lines 98-102). -/
def FieldKind.default : FieldKind := FieldKind.Unknown

/-- enum MethodKind (api.rs lines 150-157). -/
inductive MethodKind where
  | Unknown
  | Unary
  | ClientStreaming
  | ServerStreaming
  | BidirectionalStreaming
deriving Repr, DecidableEq

/-- impl Default for MethodKind (api.rs lines 159-163). -/
def MethodKind.default : MethodKind := MethodKind.Unknown

/-- struct Field. -/
structure Field where
  name : String
  field_type : FieldKind
  optional : Bool
  repeated : Bool
deriving Repr, DecidableEq

/-- Field::from_descriptor (api.rs lines 63-72): starts from Field::default(),
sets name, optional (from is_singular) and repeated (from is_repeated);
field_type is never assigned (FIXME comment in the source), so it keeps
FieldKind::default(). -/
def Field.from_descriptor (d : FieldDescriptorData) : Field :=
  ⟨d.name, FieldKind.default, d.is_singular, d.is_repeated⟩

/-- struct Method. -/
structure Method where
  name : String
  kind : MethodKind
  input_type : String
deriving Repr, DecidableEq

/-- The u8 scrutinee of the match in Method::from_descriptor_proto
(api.rs lines 133-135):
(has_client_streaming as u8) & ((has_server_streaming as u8) << 1). -/
def Method.discriminant (md : MethodDescriptorProto) : Nat :=
  let c : Nat := (if md.client_streaming then 1 else 0) % 256
  let s : Nat := (((if md.server_streaming then 1 else 0) % 256) <<< 1) % 256
  c &&& s

/-- The match arms on the discriminant in Method::from_descriptor_proto
(api.rs lines 136-141); none models the unreachable!() panic arm. -/
def Method.kindOfDiscriminant : Nat → Option MethodKind
  | 0b00 => some MethodKind.Unary
  | 0b10 => some MethodKind.ClientStreaming
  | 0b01 => some MethodKind.ServerStreaming
  | 0b11 => some MethodKind.BidirectionalStreaming
  | _ => none

/-- Method::from_descriptor_proto (api.rs lines 128-147). -/
def Method.from_descriptor_proto (md : MethodDescriptorProto) : Option Method :=
  (Method.kindOfDiscriminant (Method.discriminant md)).map
    fun k => ⟨md.name, k, md.input_type⟩

/-- struct Message. -/
structure Message where
  name : String
  fields : List Field
deriving Repr, DecidableEq

/-- Message::from_descriptor_proto (api.rs lines 45-51). -/
def Message.from_descriptor_proto (md : MessageDescriptorData) : Message :=
  ⟨md.name, md.fields.map Field.from_descriptor⟩

/-- struct Service. -/
structure Service where
  name : String
  methods : List Method
deriving Repr, DecidableEq

/-- Iterator map + collect into a Vec where the per-element body may panic:
none aborts the whole collection at the first panicking element. -/
def collectSome {α β : Type} (f : α → Option β) : List α → Option (List β)
  | [] => some []
  | a :: as =>
    match f a with
    | some b => (collectSome f as).map (b :: ·)
    | none => none

/-- Service::from_descriptor_proto (api.rs lines 111-117). -/
def Service.from_descriptor_proto (sd : ServiceDescriptorProto) : Option Service :=
  (collectSome Method.from_descriptor_proto sd.method).map fun ms => ⟨sd.name, ms⟩

/-- struct Proto. -/
structure Proto where
  name : String
  package : String
  services : List Service
  messages : List Message
deriving Repr, DecidableEq

/-- The reduction body of Proto::from_file (api.rs lines 28-32), applied to
an already-parsed file descriptor: name and package are copied, services and
messages are mapped through their classifiers in declaration order. -/
def Proto.from_descriptor (fd : FileDescriptorData) : Option Proto :=
  (collectSome Service.from_descriptor_proto fd.service).map
    fun svcs => ⟨fd.name, fd.package, svcs, fd.messages.map Message.from_descriptor_proto⟩

/-- Proto::from_file (api.rs lines 18-35): the external parse (env) followed
by the reduction. some (error e) is the Err return of from_file; none is a
panic inside the reduction. -/
def Proto.from_file (env : String → Except ParseError FileDescriptorData)
    (path : String) : Option (Except ParseError Proto) :=
  match env path with
  | Except.error e => some (Except.error e)
  | Except.ok fd => (Proto.from_descriptor fd).map Except.ok

/-- Proto::from_file(&p).unwrap() in load_proto_from_files: unwrap panics
(none) when from_file returns Err, and a panic inside from_file propagates. -/
def unwrapFromFile (env : String → Except ParseError FileDescriptorData)
    (p : String) : Option Proto :=
  match Proto.from_file env p with
  | some (Except.ok proto) => some proto
  | _ => none

/-- load_proto_from_files (api.rs lines 165-167); the ZeroCopyBuffer wrapper
is elided. none models a panic escaping the function. -/
def load_proto_from_files (env : String → Except ParseError FileDescriptorData)
    (paths : List String) : Option (Except ParseError (List Proto)) :=
  (collectSome (unwrapFromFile env) paths).map Except.ok

/-! ### Helper lemmas -/

theorem collectSome_all {α β : Type} (f : α → Option β) (g : α → β) :
    ∀ as : List α, (∀ a ∈ as, f a = some (g a)) → collectSome f as = some (as.map g)
  | [], _ => rfl
  | a :: as, h => by
    have ha : f a = some (g a) := h a (List.mem_cons_self a as)
    have ih := collectSome_all f g as fun x hx => h x (List.mem_cons_of_mem a hx)
    simp [collectSome, ha, ih]

theorem collectSome_length {α β : Type} (f : α → Option β) :
    ∀ (as : List α) (bs : List β), collectSome f as = some bs → bs.length = as.length
  | [], bs, h => by
    simp only [collectSome, Option.some.injEq] at h
    subst h
    rfl
  | a :: as, bs, h => by
    cases hfa : f a with
    | none => simp [collectSome, hfa] at h
    | some b =>
      cases hrest : collectSome f as with
      | none => simp [collectSome, hfa, hrest] at h
      | some bs2 =>
        have ih := collectSome_length f as bs2 hrest
        simp [collectSome, hfa, hrest] at h
        subst h
        simp [ih]

/-- The total function the method classifier actually computes: every method
is classified Unary, name and input type are copied. -/
def methodTotal (md : MethodDescriptorProto) : Method :=
  ⟨md.name, MethodKind.Unary, md.input_type⟩

/-- The total function the service classifier actually computes. -/
def serviceTotal (sd : ServiceDescriptorProto) : Service :=
  ⟨sd.name, sd.method.map methodTotal⟩

theorem discriminant_eq_zero (md : MethodDescriptorProto) :
    Method.discriminant md = 0 := by
  rcases md with ⟨n, c, s, i⟩
  cases c <;> cases s <;> simp [Method.discriminant]

theorem method_from_eq (md : MethodDescriptorProto) :
    Method.from_descriptor_proto md = some (methodTotal md) := by
  unfold Method.from_descriptor_proto
  rw [discriminant_eq_zero md]
  rfl

theorem service_from_eq (sd : ServiceDescriptorProto) :
    Service.from_descriptor_proto sd = some (serviceTotal sd) := by
  unfold Service.from_descriptor_proto
  rw [collectSome_all Method.from_descriptor_proto methodTotal sd.method
    fun md _ => method_from_eq md]
  rfl

theorem proto_from_descriptor_eq (fd : FileDescriptorData) :
    Proto.from_descriptor fd =
      some ⟨fd.name, fd.package, fd.service.map serviceTotal,
        fd.messages.map Message.from_descriptor_proto⟩ := by
  unfold Proto.from_descriptor
  rw [collectSome_all Service.from_descriptor_proto serviceTotal fd.service
    fun sd _ => service_from_eq sd]
  rfl

/-! ### Concrete environments used by witnesses and counterexamples -/

/-- Environment for the failure-propagation scenario: valid.proto parses to
an empty file descriptor, every other location is rejected by the parser. -/
def envC2 : String → Except ParseError FileDescriptorData := fun p =>
  if p = "valid.proto" then Except.ok ⟨"valid.proto", "", [], []⟩
  else Except.error ⟨"missing.proto: file does not reside in any include path"⟩

/-- Environment where every location parses to an empty file descriptor
named after the location itself. -/
def envOk : String → Except ParseError FileDescriptorData := fun p =>
  Except.ok ⟨p, "", [], []⟩

/-- The Proto that envOk and the reducer produce for a given path. -/
def protoOfPath (p : String) : Proto := ⟨p, "", [], []⟩

/-- A file descriptor with two services (two methods and none), and one
message with two fields, for the order-preservation witness. -/
def fdC6 : FileDescriptorData :=
  ⟨"w.proto", "pkg",
    [⟨"S1", [⟨"M1", false, false, ".pkg.In1"⟩, ⟨"M2", true, true, ".pkg.In2"⟩]⟩,
     ⟨"S2", []⟩],
    [⟨"Msg1", [⟨"f1", true, false⟩, ⟨"f2", false, true⟩]⟩]⟩

/-- The reduction of fdC6. -/
def protoC6 : Proto :=
  ⟨"w.proto", "pkg",
    [⟨"S1", [⟨"M1", MethodKind.Unary, ".pkg.In1"⟩, ⟨"M2", MethodKind.Unary, ".pkg.In2"⟩]⟩,
     ⟨"S2", []⟩],
    [⟨"Msg1", [⟨"f1", FieldKind.Unknown, true, false⟩, ⟨"f2", FieldKind.Unknown, false, true⟩]⟩]⟩

/-! ### Claim theorems -/

/-- C1: the claim says the four streaming-flag combinations map to
Unary / ClientStreaming / ServerStreaming / BidirectionalStreaming. The code
computes the discriminant with a bitwise AND of disjoint bit positions, so a
client-streaming-only method is classified Unary, not ClientStreaming:
evaluation of Method::from_descriptor_proto at client_streaming = true,
server_streaming = false. -/
theorem method_classifier_client_only_yields_unary :
    Method.from_descriptor_proto ⟨"Send", true, false, ".pkg.Req"⟩ =
      some ⟨"Send", MethodKind.Unary, ".pkg.Req"⟩ ∧
    Method.from_descriptor_proto ⟨"Send", true, false, ".pkg.Req"⟩ ≠
      some ⟨"Send", MethodKind.ClientStreaming, ".pkg.Req"⟩ := by
  exact ⟨rfl, by decide⟩

/-- C2: the claim says load_proto_from_files surfaces a ParseError to the
caller identifying the failing location. The code unwraps each per-file
Result, so with inputs [valid.proto, missing.proto] the per-file ParseError
exists and identifies missing.proto, but the batch panics (none) and the
error is never returned to the caller. -/
theorem load_proto_from_files_panics_on_failing_file :
    load_proto_from_files envC2 ["valid.proto", "missing.proto"] = none ∧
    Proto.from_file envC2 "missing.proto" =
      some (Except.error ⟨"missing.proto: file does not reside in any include path"⟩) := by
  exact ⟨rfl, rfl⟩

/-- C3: for every pair of streaming flags the discriminant
(client as u8) & ((server as u8) << 1) equals 0b00, so the classifier
assigns MethodKind.Unary to every method and the streaming and unreachable
match arms are never taken. -/
theorem method_discriminant_zero_and_always_unary (md : MethodDescriptorProto) :
    Method.discriminant md = 0b00 ∧
    Method.from_descriptor_proto md = some ⟨md.name, MethodKind.Unary, md.input_type⟩ :=
  ⟨discriminant_eq_zero md, method_from_eq md⟩

/-- C4 counterexample: the claim says a produced Field never has
repeated = true and optional = true simultaneously. Field::from_descriptor
copies both descriptor queries verbatim, so a descriptor answering true to
both the singular and the repeated query yields a Field with both flags. -/
theorem field_classifier_both_flags_possible :
    (Field.from_descriptor ⟨"both", true, true⟩).repeated = true ∧
    (Field.from_descriptor ⟨"both", true, true⟩).optional = true := by
  exact ⟨rfl, rfl⟩

/-- C4 amended: the Field copies the descriptor queries verbatim, so whenever
the descriptor does not answer true to both the singular and the repeated
query, the produced Field never has repeated = true and optional = true. -/
theorem field_classifier_exclusive_when_descriptor_exclusive
    (d : FieldDescriptorData)
    (h : ¬(d.is_singular = true ∧ d.is_repeated = true)) :
    ¬((Field.from_descriptor d).repeated = true ∧
      (Field.from_descriptor d).optional = true) := by
  intro hc
  exact h ⟨hc.2, hc.1⟩

/-- C4 witness: a repeated, non-singular descriptor satisfies the hypothesis
and its Field does not carry both flags. -/
theorem field_classifier_exclusive_witness :
    ¬((Field.from_descriptor ⟨"tags", false, true⟩).repeated = true ∧
      (Field.from_descriptor ⟨"tags", false, true⟩).optional = true) :=
  field_classifier_exclusive_when_descriptor_exclusive ⟨"tags", false, true⟩ (by decide)

/-- C5: Field::from_descriptor never assigns field_type, so every produced
Field keeps the default FieldKind, which is Unknown. -/
theorem field_type_always_unknown (d : FieldDescriptorData) :
    (Field.from_descriptor d).field_type = FieldKind.default ∧
    FieldKind.default = FieldKind.Unknown := by
  exact ⟨rfl, rfl⟩

/-- C6: a successful reduction preserves declaration order at every level:
services of the file, methods within each service, messages of the file and
fields within each message appear in the Proto in descriptor order. -/
theorem from_descriptor_preserves_declaration_order
    (fd : FileDescriptorData) (proto : Proto)
    (h : Proto.from_descriptor fd = some proto) :
    proto.services.map Service.name = fd.service.map ServiceDescriptorProto.name ∧
    proto.messages.map Message.name = fd.messages.map MessageDescriptorData.name ∧
    proto.services.map (fun s => s.methods.map Method.name) =
      fd.service.map (fun sd => sd.method.map MethodDescriptorProto.name) ∧
    proto.messages.map (fun m => m.fields.map Field.name) =
      fd.messages.map (fun md => md.fields.map FieldDescriptorData.name) := by
  rw [proto_from_descriptor_eq fd, Option.some.injEq] at h
  subst h
  refine ⟨?_, ?_, ?_, ?_⟩ <;>
    simp [List.map_map, Function.comp_def, serviceTotal, methodTotal,
      Message.from_descriptor_proto, Field.from_descriptor]

/-- C6 witness: the reduction of the concrete descriptor fdC6 preserves
declaration order at all four levels. -/
theorem from_descriptor_preserves_order_witness :
    protoC6.services.map Service.name = fdC6.service.map ServiceDescriptorProto.name ∧
    protoC6.messages.map Message.name = fdC6.messages.map MessageDescriptorData.name ∧
    protoC6.services.map (fun s => s.methods.map Method.name) =
      fdC6.service.map (fun sd => sd.method.map MethodDescriptorProto.name) ∧
    protoC6.messages.map (fun m => m.fields.map Field.name) =
      fdC6.messages.map (fun md => md.fields.map FieldDescriptorData.name) :=
  from_descriptor_preserves_declaration_order fdC6 protoC6 rfl

/-- C7: when every per-file reduction succeeds, load_proto_from_files
returns exactly one Proto per input path, in input order. -/
theorem load_proto_from_files_all_ok_ordered
    (env : String → Except ParseError FileDescriptorData)
    (paths : List String) (g : String → Proto)
    (h : ∀ p ∈ paths, Proto.from_file env p = some (Except.ok (g p))) :
    load_proto_from_files env paths = some (Except.ok (paths.map g)) := by
  unfold load_proto_from_files
  rw [collectSome_all (unwrapFromFile env) g paths
    fun p hp => by unfold unwrapFromFile; rw [h p hp]]
  rfl

/-- C7 witness: two paths that both parse under envOk yield the two
corresponding Protos in input order. -/
theorem load_proto_from_files_all_ok_witness :
    load_proto_from_files envOk ["a.proto", "b.proto"] =
      some (Except.ok [⟨"a.proto", "", [], []⟩, ⟨"b.proto", "", [], []⟩]) :=
  load_proto_from_files_all_ok_ordered envOk ["a.proto", "b.proto"] protoOfPath
    fun p _ => rfl

/-- C8: the Field produced by Field::from_descriptor has name equal to the
descriptor name, optional equal to the singular query and repeated equal to
the repeated query. -/
theorem field_from_descriptor_components (d : FieldDescriptorData) :
    (Field.from_descriptor d).name = d.name ∧
    (Field.from_descriptor d).optional = d.is_singular ∧
    (Field.from_descriptor d).repeated = d.is_repeated := by
  exact ⟨rfl, rfl, rfl⟩

/-- C9: the method classifier is total: for every descriptor it returns a
Method, so the unreachable!() arm (modelled none) is never executed. -/
theorem method_classifier_total (md : MethodDescriptorProto) :
    (Method.from_descriptor_proto md).isSome = true := by
  rw [method_from_eq md]
  rfl

/-- C10: load_proto_from_files never returns an Err value: for every
environment and path list it either panics (none) or returns Ok with exactly
one Proto per input path. -/
theorem load_proto_from_files_never_err
    (env : String → Except ParseError FileDescriptorData) (paths : List String) :
    load_proto_from_files env paths = none ∨
    ∃ l, load_proto_from_files env paths = some (Except.ok l) ∧
      l.length = paths.length := by
  unfold load_proto_from_files
  cases h : collectSome (unwrapFromFile env) paths with
  | none => exact Or.inl rfl
  | some l =>
    exact Or.inr ⟨l, rfl, collectSome_length (unwrapFromFile env) paths l h⟩

end GrpcDebug
